import Mathlib

/-!
Verification development for the StintStoppers CVD risk prediction service.

Shallow embedding of the risk-classification pipeline of
`src/api_server.py` (feature extraction, selective standardization, the
`/predict` and `/predict-batch` request handlers) and
`src/cvd_risk_predictor.py` (`train_model`: dedup, scaler fit_transform,
SMOTE rebalancing, 70/30 split, random-forest fit).

Machine reals are modelled as rationals.  Library calls
(sklearn StandardScaler / RandomForestClassifier / train_test_split,
imblearn SMOTE) are embedded at the level of their documented behavior;
each such definition carries a comment saying which library call it models
and which aspects are abstracted.
-/

set_option maxRecDepth 10000

/-- The fixed ordered feature schema (api_server.py lines 19-23,
cvd_risk_predictor.py lines 22-26). -/
def feature_names : List String :=
  [ "age", "anaemia", "creatinine_phosphokinase", "diabetes",
    "ejection_fraction", "high_blood_pressure", "platelets",
    "serum_creatinine", "serum_sodium", "sex", "smoking", "time"]

/-- The subset of continuous features (api_server.py lines 24-27). -/
def continuous_vars : List String :=
  [ "age", "creatinine_phosphokinase", "ejection_fraction",
    "platelets", "serum_creatinine", "serum_sodium", "time"]

/-- Positions of the continuous variables inside the schema
(api_server.py line 77); evaluates to [0, 2, 4, 6, 7, 8, 11]. -/
def continuous_indices : List Nat :=
  continuous_vars.map (fun v => feature_names.indexOf v)

/-- A JSON field value as seen by Python float() coercion: `num q` is a
value float() converts to the number q (numbers and numeric strings);
`nonNumeric s` is a string float() rejects with a ValueError. -/
inductive PVal
  | num (q : ℚ)
  | nonNumeric (s : String)
deriving DecidableEq

/-- A JSON object (Python dict) sent to the API: an association list from
field name to value; a dict has unique keys. -/
abbrev Record := List (String × PVal)

/-- Dict lookup: `patient_data[feature]`, none when the key is absent. -/
def lookupField : Record → String → Option PVal
  | [], _ => none
  | (k, v) :: r, f => if k = f then some v else lookupField r f

/-- Errors raised inside the feature-extraction loop: a missing field
raises ValueError (api_server.py line 67); float() on a non-numeric string
raises ValueError naming the offending value (line 68). -/
inductive VErr
  | missingField (field : String)
  | invalidValue (value : String)
deriving DecidableEq

/-- str(e) of the two ValueErrors (Python renders the offending value of
the float() error inside quotes; the quotes are omitted here). -/
def VErr.message : VErr → String
  | .missingField f => "Missing required field: " ++ f
  | .invalidValue s => "could not convert string to float: " ++ s

/-- Decidable equality of fallible results, so that concrete runs can be
checked by evaluation. -/
instance {ε α : Type} [DecidableEq ε] [DecidableEq α] :
    DecidableEq (Except ε α) := fun x y =>
  match x, y with
  | .ok a, .ok b => decidable_of_iff (a = b) (by simp)
  | .ok _, .error _ => isFalse (by simp)
  | .error _, .ok _ => isFalse (by simp)
  | .error e, .error e' => decidable_of_iff (e = e') (by simp)

/-- The field-extraction loop of preprocess_patient_data (api_server.py
lines 64-68): for each schema field in the fixed order, look it up
(raising on a missing field) and coerce it with float() (raising on a
non-numeric value); the first failing field aborts the loop. -/
def extractFeatures (r : Record) : List String → Except VErr (List ℚ)
  | [] => .ok []
  | f :: fs =>
    match lookupField r f with
    | none => .error (.missingField f)
    | some (.num q) => (extractFeatures r fs).map (fun v => q :: v)
    | some (.nonNumeric s) => .error (.invalidValue s)

/-- vectorize (the FeatureSchema contract): the extraction loop run over
the full 12-name schema. -/
def vectorize (r : Record) : Except VErr (List ℚ) :=
  extractFeatures r feature_names

/-- Boolean success test for vectorize, used to state hypotheses. -/
def vectorizeOk (r : Record) : Bool :=
  match vectorize r with
  | .ok _ => true
  | .error _ => false

/-- The float()-coerced value of a field; the 0 default is only reached in
branches that callers have already ruled out. -/
def coerceD (r : Record) (f : String) : ℚ :=
  match lookupField r f with
  | some (.num q) => q
  | _ => 0

/-- ScalerState: per-continuous-column mean and scale of a fitted sklearn
StandardScaler (fitted over the 7 continuous columns). -/
structure Scaler where
  mean : Fin 7 → ℚ
  scale : Fin 7 → ℚ

/-- StandardScaler.transform on one 7-entry row of continuous values:
column-wise (x - mean) / scale. -/
def Scaler.transform (sc : Scaler) (xs : List ℚ) : List ℚ :=
  (List.finRange 7).map (fun i => (xs.getD i.val 0 - sc.mean i) / sc.scale i)

/-- numpy fancy read a[idxs]. -/
def gatherAt (xs : List ℚ) (idxs : List Nat) : List ℚ :=
  idxs.map (fun i => xs.getD i 0)

/-- numpy fancy assignment a[idxs] = vals, element by element. -/
def setAt (xs : List ℚ) (idxs : List Nat) (vals : List ℚ) : List ℚ :=
  (idxs.zip vals).foldl (fun acc p => acc.set p.1 p.2) xs

/-- The Python exceptions the request handlers distinguish: except
ValueError gives HTTP 400, anything else (here: the AttributeError raised
by calling a method on a still-None model or scaler) falls to the generic
500 handler. -/
inductive PyErr
  | valueError (msg : String)
  | attributeError (msg : String)
deriving DecidableEq

/-- str(e). -/
def PyErr.str : PyErr → String
  | .valueError m => m
  | .attributeError m => m

/-- Message of the AttributeError raised by `scaler.transform` while the
module-level scaler is still None (Python quotes the two names; the quotes
are omitted here). -/
def noScalerMsg : String := "NoneType object has no attribute transform"

/-- Message of the AttributeError raised by `model.predict` while the
module-level model is still None. -/
def noModelMsg : String := "NoneType object has no attribute predict"

/-- Lines 71-84 of api_server.py: copy the feature vector and overwrite
the continuous positions with scaler.transform of those positions; the
binary positions are copied through untouched. -/
def scaledFeatures (sc : Scaler) (features : List ℚ) : List ℚ :=
  setAt features continuous_indices
    (sc.transform (gatherAt features continuous_indices))

/-- preprocess_patient_data (api_server.py lines 50-84): extract the
ordered 12-feature vector, then selectively standardize the continuous
positions.  The module-level scaler may still be None, in which case the
transform call raises AttributeError. -/
def preprocess_patient_data (scaler : Option Scaler) (patient_data : Record) :
    Except PyErr (List ℚ) :=
  match vectorize patient_data with
  | .error e => .error (.valueError e.message)
  | .ok features =>
    match scaler with
    | none => .error (.attributeError noScalerMsg)
    | some sc => .ok (scaledFeatures sc features)

/-- A decision tree over feature vectors (label true = class 1). -/
inductive DTree
  | leaf (label : Bool)
  | node (feature : Nat) (threshold : ℚ) (left right : DTree)
deriving DecidableEq

/-- Tree evaluation: go left when the split feature is at most the
threshold. -/
def DTree.eval : DTree → List ℚ → Bool
  | .leaf b, _ => b
  | .node i t l r, x => if x.getD i 0 ≤ t then l.eval x else r.eval x

/-- ClassifierState: a fitted sklearn RandomForestClassifier, modelled at
the capability level the pipeline uses (fit / predict / predict_proba):
a bag of decision trees voting by majority. -/
structure Forest where
  trees : List DTree
deriving DecidableEq

/-- model.predict_proba(x)[0, 1]: the positive-class probability estimate,
the fraction of trees voting for class 1. -/
def Forest.predict_proba (m : Forest) (x : List ℚ) : ℚ :=
  ((m.trees.countP (fun t => t.eval x) : ℕ) : ℚ) / (m.trees.length : ℚ)

/-- model.predict(x)[0]: the argmax class; class 1 wins exactly when its
probability exceeds 1/2 (on a tie argmax returns the first index,
class 0). -/
def Forest.predict (m : Forest) (x : List ℚ) : Bool :=
  1 / 2 < m.predict_proba x

/-- The module-level globals of api_server.py (lines 17-18): both start as
None and are replaced by load_model(). -/
structure ServerState where
  model : Option Forest
  scaler : Option Scaler

/-- The success payload of the prediction handlers (api_server.py lines
145-151 and 213-220).  The risk_percentage field is a presentation-only
string formatting of risk_probability and is not modelled. -/
structure PredictionPayload where
  cvd_risk : String
  risk_probability : ℚ
  risk_level : String
deriving DecidableEq

/-- The transport-level outcome of the /predict handler: HTTP 200 with a
success payload, HTTP 400 (ValueError or missing body), or HTTP 500 (the
generic exception handler). -/
inductive ApiResponse
  | ok (payload : PredictionPayload)
  | badRequest (error : String)
  | internalError (error : String)
deriving DecidableEq

/-- The shared body of the two try blocks (api_server.py lines 134-151 and
203-220): preprocess, model.predict, model.predict_proba, then derive the
YES/NO label and the HIGH/LOW risk level from `prediction == 1`. -/
def runPrediction (st : ServerState) (patient_data : Record) :
    Except PyErr PredictionPayload :=
  match preprocess_patient_data st.scaler patient_data with
  | .error e => .error e
  | .ok features =>
    match st.model with
    | none => .error (.attributeError noModelMsg)
    | some m =>
      let prediction := m.predict features
      let probability := m.predict_proba features
      .ok { cvd_risk := if prediction then "YES" else "NO",
            risk_probability := probability,
            risk_level := if prediction then "HIGH RISK" else "LOW RISK" }

/-- The /predict handler (api_server.py lines 96-163).  body = none models
a request with no JSON; an empty dict is falsy in Python and is rejected by
the same `if not patient_data` check.  except ValueError gives 400 with
str(e); the generic handler gives 500 with "Prediction failed: " ++
str(e). -/
def predict (st : ServerState) (patient_data : Option Record) : ApiResponse :=
  match patient_data with
  | none => .badRequest "No data provided"
  | some pd =>
    if pd.isEmpty then .badRequest "No data provided"
    else
      match runPrediction st pd with
      | .ok payload => .ok payload
      | .error (.valueError m) => .badRequest m
      | .error (.attributeError m) => .internalError ("Prediction failed: " ++ m)

/-- One element of the batch results list: a success dict or an error dict,
each tagged with the patient_index of its input record (api_server.py
lines 213-227). -/
inductive BatchEntry
  | success (patient_index : Nat) (payload : PredictionPayload)
  | failure (patient_index : Nat) (error : String)
deriving DecidableEq

/-- Whether r.get('success', False) is true for an entry. -/
def BatchEntry.isSuccess : BatchEntry → Bool
  | .success _ _ => true
  | .failure _ _ => false

/-- The 200 payload of /predict-batch (api_server.py lines 229-233). -/
structure BatchResponse where
  results : List BatchEntry
  total : Nat
  successful : Nat
deriving DecidableEq

/-- Transport-level outcome of /predict-batch: 200 or 400 (a missing body
or a body without a patients key). -/
inductive BatchApiResponse
  | ok (response : BatchResponse)
  | badRequest (error : String)
deriving DecidableEq

/-- One iteration of the predict_batch loop (api_server.py lines 200-227):
the per-record try/except turns any exception into a failure entry tagged
with the record index, so later records still run. -/
def batchEntry (st : ServerState) (i : Nat) (pd : Record) : BatchEntry :=
  match runPrediction st pd with
  | .ok payload => .success i payload
  | .error e => .failure i e.str

/-- The /predict-batch handler (api_server.py lines 166-239): enumerate the
records, build one tagged entry per record, report total = len(patients)
and successful = the number of success entries. -/
def predict_batch (st : ServerState) (body : Option (List Record)) :
    BatchApiResponse :=
  match body with
  | none => .badRequest "No patient data provided"
  | some patients =>
    let results := patients.enum.map (fun p => batchEntry st p.1 p.2)
    .ok { results := results,
          total := patients.length,
          successful := results.countP (fun r => r.isSuccess) }

/-- A training frame row: 13 columns, columns 0-11 the schema features in
order, column 12 the binary DEATH_EVENT label (the heart_failure.csv
layout that train_model reads). -/
abbrev Frame := List (List ℚ)

/-- Worker of pandas drop_duplicates: keep the first occurrence of each
row, preserving order. -/
def dropDupGo : List (List ℚ) → List (List ℚ) → List (List ℚ)
  | [], _ => []
  | r :: rs, seen =>
    if r ∈ seen then dropDupGo rs seen else r :: dropDupGo rs (r :: seen)

/-- pandas DataFrame.drop_duplicates (cvd_risk_predictor.py line 38). -/
def dropDuplicates (l : List (List ℚ)) : List (List ℚ) := dropDupGo l []

/-- Column mean, as computed by StandardScaler.fit. -/
def colMean (xs : List ℚ) : ℚ := xs.sum / (xs.length : ℚ)

/-- Population variance (numpy ddof = 0), as computed by
StandardScaler.fit. -/
def colVar (xs : List ℚ) : ℚ :=
  ((xs.map (fun x => (x - colMean xs) ^ 2)).sum) / (xs.length : ℚ)

/-- Exact rational square root where one exists, 0 otherwise.  Every
concrete dataset in this development is chosen with perfect-square column
variances, so the fallback branch is never exercised by a theorem. -/
def ratSqrt (q : ℚ) : ℚ :=
  let n := Nat.sqrt q.num.toNat
  let d := Nat.sqrt q.den
  if 0 ≤ q.num ∧ n * n = q.num.toNat ∧ d * d = q.den then (n : ℚ) / (d : ℚ)
  else 0

/-- StandardScaler scale_: the square root of the column variance, with an
exactly zero variance replaced by 1 (sklearn _handle_zeros_in_scale), so
that transform never divides by zero. -/
def scaleOfVar (v : ℚ) : ℚ := if v = 0 then 1 else ratSqrt v

/-- One column of a frame. -/
def column (rows : List (List ℚ)) (j : Nat) : List ℚ :=
  rows.map (fun r => r.getD j 0)

/-- The fit half of `self.scaler.fit_transform(df[self.continuous_vars])`
(cvd_risk_predictor.py lines 41-42): per continuous column, the mean and
the zero-guarded square root of the population variance. -/
def fitScaler (rows : List (List ℚ)) : Scaler :=
  { mean := fun i => colMean (column rows (continuous_indices.getD i.val 0)),
    scale := fun i =>
      scaleOfVar (colVar (column rows (continuous_indices.getD i.val 0))) }

/-- The transform half of fit_transform, applied to one row: continuous
positions standardized in place, every other position untouched. -/
def scaleRow (sc : Scaler) (r : List ℚ) : List ℚ :=
  setAt r continuous_indices (sc.transform (gatherAt r continuous_indices))

/-- Deterministic pseudo-random stream standing in for the library RNGs
(numpy RandomState): one 32-bit linear congruential step. -/
def lcg (s : Nat) : Nat := (1664525 * s + 1013904223) % 4294967296

/-- Squared euclidean distance, the metric of the SMOTE neighbor search. -/
def dist2 (p q : List ℚ) : ℚ := ((p.zip q).map (fun a => (a.1 - a.2) ^ 2)).sum

/-- Nearest same-class neighbor of pts[selfIdx] (first index wins ties):
the k-nearest-neighbor step of SMOTE, abstracted to k = 1. -/
def nearestNeighbor (pts : List (List ℚ)) (p : List ℚ) (selfIdx : Nat) :
    List ℚ :=
  match pts.enum.filter (fun q => q.1 ≠ selfIdx) with
  | [] => p
  | c :: cs =>
    (cs.foldl (fun best q => if dist2 p q.2 < dist2 p best.2 then q else best)
      c).2

/-- Interpolation gap in [0, 1) drawn from the seeded stream. -/
def gapOf (seed i : Nat) : ℚ := (((lcg (seed + i)) % 1000 : Nat) : ℚ) / 1000

/-- One synthetic minority sample: a point p of the minority class moved a
random fraction of the way towards its nearest same-class neighbor,
p + gap * (neighbor - p). -/
def syntheticSample (seed : Nat) (minPts : List (List ℚ)) (i : Nat) :
    List ℚ :=
  match minPts with
  | [] => []
  | p0 :: _ =>
    let j := i % minPts.length
    let p := minPts.getD j p0
    let q := nearestNeighbor minPts p j
    (p.zip q).map (fun a => a.1 + gapOf seed i * (a.2 - a.1))

/-- imblearn SMOTE(random_state = seed).fit_resample: append interpolated
synthetic minority samples after the original rows until both classes have
equal count; already-balanced input (or input without minority points) is
returned unchanged. -/
def smoteResample (seed : Nat) (X : List (List ℚ)) (y : List Bool) :
    List (List ℚ) × List Bool :=
  let n1 := y.count true
  let n0 := y.count false
  if n0 = n1 then (X, y)
  else
    let minority := decide (n1 < n0)
    let minPts := ((X.zip y).filter (fun p => p.2 = minority)).map Prod.fst
    if minPts.isEmpty then (X, y)
    else
      let k := max n0 n1 - min n0 n1
      (X ++ (List.range k).map (fun i => syntheticSample seed minPts i),
       y ++ List.replicate k minority)

/-- Fuel-indexed Fisher-Yates walk: pick the element at the seeded index,
then recurse on the remainder with the stepped seed. -/
def shuffleFuel : Nat → Nat → List α → List α
  | 0, _, l => l
  | _ + 1, _, [] => []
  | fuel + 1, s, x :: xs =>
    let l := x :: xs
    let i := s % l.length
    l.getD i x :: shuffleFuel fuel (lcg s) (l.eraseIdx i)

/-- The seeded permutation used by train_test_split, modelled as a
deterministic Fisher-Yates shuffle driven by the lcg stream. -/
def shuffle (seed : Nat) (l : List α) : List α := shuffleFuel l.length seed l

/-- sklearn test-set size for test_size = 0.30: ceil(3 n / 10). -/
def nTest (n : Nat) : Nat := (3 * n + 9) / 10

/-- sklearn train_test_split(X, y, test_size=0.30, random_state=seed):
shuffle the rows with the seeded permutation, take the first nTest rows as
the test split and the rest as the train split; returns (train, test).
X and y are permuted together, so the input here is the zipped rows. -/
def train_test_split (seed : Nat) (l : List α) : List α × List α :=
  let p := shuffle seed l
  (p.drop (nTest p.length), p.take (nTest p.length))

/-- One bootstrap draw per training row, indices from the seeded stream. -/
def bootstrapSample (seed : Nat) (data : List (List ℚ × Bool)) :
    List (List ℚ × Bool) :=
  (List.range data.length).map
    (fun k => data.getD (lcg (seed + k) % data.length) ([], false))

/-- Majority label of a sample (ties to class 0, the argmax default). -/
def majorityLabel (data : List (List ℚ × Bool)) : Bool :=
  data.length < 2 * data.countP (fun p => p.2)

/-- RandomForestClassifier(n_estimators = nTrees, random_state = seed).fit:
a deterministic function of the seed and the training rows producing
nTrees bagged trees.  Tree induction is abstracted to a bootstrap-majority
stump per tree; the claims below depend on the ensemble shape (tree count,
determinism, majority voting), not on the split rule inside a tree. -/
def forestFit (seed nTrees : Nat) (data : List (List ℚ × Bool)) : Forest :=
  { trees := (List.range nTrees).map
      (fun t => DTree.leaf (majorityLabel (bootstrapSample (seed + t) data))) }

/-- The artifact pair produced by one training run. -/
structure TrainedPipeline where
  scaler : Scaler
  model : Forest

/-- train_model (cvd_risk_predictor.py lines 32-85), straight-line: drop
duplicate rows, fit the scaler on the continuous columns of the whole
deduplicated frame and standardize them in place, split off features and
label, SMOTE(random_state=42), train_test_split(test_size=0.30,
random_state=42), RandomForestClassifier(100, 42).fit on the train
portion.  The printed evaluation metrics (lines 70-83) are telemetry and
produce no artifact. -/
def train_model (df : Frame) : TrainedPipeline :=
  let d := dropDuplicates df
  let scaler := fitScaler d
  let scaled := d.map (fun r => scaleRow scaler r)
  let X := scaled.map (fun r => r.take 12)
  let y := scaled.map (fun r => decide (r.getD 12 0 ≠ 0))
  let XY := smoteResample 42 X y
  let split := train_test_split 42 (XY.1.zip XY.2)
  let model := forestFit 42 100 split.1
  { scaler := scaler, model := model }

/-- The scaled deduplicated frame: the rows whose continuous columns the
scaler statistics were computed from, after in-place standardization. -/
def scaledRows (df : Frame) : Frame :=
  (dropDuplicates df).map (fun r => scaleRow (fitScaler (dropDuplicates df)) r)

/-- Stage view of train_model: the feature matrix handed to SMOTE. -/
def trainX (df : Frame) : List (List ℚ) :=
  (scaledRows df).map (fun r => r.take 12)

/-- Stage view of train_model: the label vector handed to SMOTE. -/
def trainY (df : Frame) : List Bool :=
  (scaledRows df).map (fun r => decide (r.getD 12 0 ≠ 0))

/-- Stage view of train_model: the rebalanced data. -/
def resampledXY (df : Frame) : List (List ℚ) × List Bool :=
  smoteResample 42 (trainX df) (trainY df)

/-- Stage view of train_model: the (train, test) split of the rebalanced
rows. -/
def splitData (df : Frame) :
    List (List ℚ × Bool) × List (List ℚ × Bool) :=
  train_test_split 42 ((resampledXY df).1.zip (resampledXY df).2)

/-- The payload the handlers build for a well-formed record (feature vector
v) under a loaded model and scaler. -/
def payloadFor (m : Forest) (sc : Scaler) (v : List ℚ) : PredictionPayload :=
  { cvd_risk := if m.predict (scaledFeatures sc v) then "YES" else "NO",
    risk_probability := m.predict_proba (scaledFeatures sc v),
    risk_level :=
      if m.predict (scaledFeatures sc v) then "HIGH RISK" else "LOW RISK" }

/-- The payload built by the handler bodies from already-preprocessed
features x (api_server.py lines 137-151). -/
def builtPayload (m : Forest) (x : List ℚ) : PredictionPayload :=
  { cvd_risk := if m.predict x then "YES" else "NO",
    risk_probability := m.predict_proba x,
    risk_level := if m.predict x then "HIGH RISK" else "LOW RISK" }

/-- A well-formed record with all 12 schema fields (small values keep
kernel evaluation cheap). -/
def goodRecord : Record :=
  [ ("age", .num 65), ("anaemia", .num 0),
    ("creatinine_phosphokinase", .num 582), ("diabetes", .num 0),
    ("ejection_fraction", .num 20), ("high_blood_pressure", .num 0),
    ("platelets", .num 265), ("serum_creatinine", .num (19 / 10)),
    ("serum_sodium", .num 130), ("sex", .num 1), ("smoking", .num 0),
    ("time", .num 4)]

/-- goodRecord with its bindings in reverse insertion order. -/
def goodRecordReversed : Record := goodRecord.reverse

/-- goodRecord with the serum_sodium field absent. -/
def missingSodiumRecord : Record :=
  [ ("age", .num 65), ("anaemia", .num 0),
    ("creatinine_phosphokinase", .num 582), ("diabetes", .num 0),
    ("ejection_fraction", .num 20), ("high_blood_pressure", .num 0),
    ("platelets", .num 265), ("serum_creatinine", .num (19 / 10)),
    ("sex", .num 1), ("smoking", .num 0), ("time", .num 4)]

/-- goodRecord with a non-numeric serum_sodium value. -/
def invalidSodiumRecord : Record :=
  [ ("age", .num 65), ("anaemia", .num 0),
    ("creatinine_phosphokinase", .num 582), ("diabetes", .num 0),
    ("ejection_fraction", .num 20), ("high_blood_pressure", .num 0),
    ("platelets", .num 265), ("serum_creatinine", .num (19 / 10)),
    ("serum_sodium", .nonNumeric "abc"), ("sex", .num 1),
    ("smoking", .num 0), ("time", .num 4)]

/-- A record carrying only a key outside the schema. -/
def extraOnlyRecord : Record := [ ("patient_id", .num 7)]

/-- goodRecord extended with a non-schema key. -/
def extendedRecord : Record := goodRecord ++ [ ("patient_id", .num 7)]

/-- A concrete fitted scaler (identity standardization). -/
def sc0 : Scaler := { mean := fun _ => 0, scale := fun _ => 1 }

/-- A concrete one-tree forest that always votes class 1. -/
def m0 : Forest := { trees := [ .leaf true] }

/-- A loaded server state. -/
def st0 : ServerState := { model := some m0, scaler := some sc0 }

/-- The server state before load_model has run: both globals are None. -/
def stNone : ServerState := { model := none, scaler := none }

/-- A concrete 13-column training frame with both classes present and
unequal counts (1 positive, 3 negative); the continuous columns are
constant so every column variance is 0 and all scaler arithmetic is
exact. -/
def df5 : Frame :=
  [ [ 50, 0, 100, 0, 30, 0, 200, 1, 135, 0, 0, 10, 1],
    [ 50, 1, 100, 0, 30, 0, 200, 1, 135, 0, 0, 10, 0],
    [ 50, 0, 100, 1, 30, 0, 200, 1, 135, 0, 0, 10, 0],
    [ 50, 0, 100, 0, 30, 1, 200, 1, 135, 0, 0, 10, 0]]

/-- A concrete 13-column training frame with equal class counts (so SMOTE
leaves it unchanged) and constant continuous columns. -/
def df6 : Frame :=
  [ [ 50, 0, 100, 0, 30, 0, 200, 1, 135, 0, 0, 10, 1],
    [ 50, 1, 100, 0, 30, 0, 200, 1, 135, 0, 0, 10, 1],
    [ 50, 0, 100, 1, 30, 0, 200, 1, 135, 0, 0, 10, 0],
    [ 50, 0, 100, 0, 30, 1, 200, 1, 135, 0, 0, 10, 0]]

/-- A concrete training frame whose continuous columns all have zero
variance (each is constant). -/
def df8 : Frame := df6

/-- Boolean test that a field is present with a float()-coercible value. -/
def isNum : Option PVal → Bool
  | some (.num _) => true
  | _ => false

/-- Boolean success test for the shared handler body. -/
def predOk (st : ServerState) (r : Record) : Bool :=
  match runPrediction st r with
  | .ok _ => true
  | .error _ => false

/-- The invariant claimed for every success payload: a YES/NO label, a
probability inside [0, 1], and a risk level tied one-to-one to the
label. -/
def payloadInv (p : PredictionPayload) : Prop :=
  (p.cvd_risk = "YES" ∨ p.cvd_risk = "NO") ∧
  0 ≤ p.risk_probability ∧ p.risk_probability ≤ 1 ∧
  (p.cvd_risk = "YES" ↔ p.risk_level = "HIGH RISK") ∧
  (p.cvd_risk = "NO" ↔ p.risk_level = "LOW RISK")

/-- The payload the concrete one-tree always-YES forest produces. -/
def yesPayload : PredictionPayload :=
  { cvd_risk := "YES", risk_probability := 1, risk_level := "HIGH RISK" }

/-! ### Helper lemmas -/

theorem extractFeatures_congr (r1 r2 : Record) (fs : List String)
    (h : ∀ f ∈ fs, lookupField r1 f = lookupField r2 f) :
    extractFeatures r1 fs = extractFeatures r2 fs := by
  induction fs with
  | nil => rfl
  | cons f fs ih =>
    have ih' := ih (fun g hg => h g (List.mem_cons_of_mem f hg))
    simp only [extractFeatures, h f (List.mem_cons_self f fs), ih']

theorem lookupField_perm {r1 r2 : Record} (hp : r1.Perm r2) :
    (r1.map Prod.fst).Nodup → ∀ f, lookupField r1 f = lookupField r2 f := by
  induction hp with
  | nil => exact fun _ _ => rfl
  | cons a _ ih =>
    intro hn f
    obtain ⟨k, v⟩ := a
    simp only [lookupField]
    by_cases hk : k = f
    · simp [hk]
    · simp only [if_neg hk]
      exact ih (by simpa using (List.nodup_cons.mp (by simpa using hn)).2) f
  | swap x y l =>
    intro hn f
    obtain ⟨kx, vx⟩ := x
    obtain ⟨ky, vy⟩ := y
    have hne : ky ≠ kx := by
      simp only [List.map_cons, List.nodup_cons, List.mem_cons] at hn
      exact fun he => hn.1 (Or.inl he)
    simp only [lookupField]
    by_cases h1 : ky = f <;> by_cases h2 : kx = f
    · exact absurd (h1.trans h2.symm) hne
    · simp [h1, h2]
    · simp [h1, h2]
    · simp [h1, h2]
  | trans p1 _ ih1 ih2 =>
    intro hn f
    rw [ih1 hn f, ih2 ((p1.map Prod.fst).nodup_iff.mp hn) f]

theorem extractFeatures_ok (r : Record) (fs : List String)
    (h : ∀ f ∈ fs, isNum (lookupField r f) = true) :
    extractFeatures r fs = .ok (fs.map (fun f => coerceD r f)) := by
  induction fs with
  | nil => rfl
  | cons f fs ih =>
    have hf := h f (List.mem_cons_self f fs)
    have ih' := ih (fun g hg => h g (List.mem_cons_of_mem f hg))
    cases hl : lookupField r f with
    | none => rw [hl] at hf; simp [isNum] at hf
    | some v =>
      cases v with
      | num q => simp [extractFeatures, hl, ih', Except.map, coerceD]
      | nonNumeric s => rw [hl] at hf; simp [isNum] at hf

theorem extractFeatures_first_missing (r : Record) (fs1 fs2 : List String)
    (f : String) (h1 : ∀ g ∈ fs1, isNum (lookupField r g) = true)
    (h2 : lookupField r f = none) :
    extractFeatures r (fs1 ++ f :: fs2) = .error (.missingField f) := by
  induction fs1 with
  | nil => simp [extractFeatures, h2]
  | cons g gs ih =>
    have hg := h1 g (List.mem_cons_self g gs)
    have ih' := ih (fun g' hg' => h1 g' (List.mem_cons_of_mem g hg'))
    cases hl : lookupField r g with
    | none => rw [hl] at hg; simp [isNum] at hg
    | some v =>
      cases v with
      | num q => simp [extractFeatures, hl, ih', Except.map]
      | nonNumeric s => rw [hl] at hg; simp [isNum] at hg

theorem extractFeatures_first_invalid (r : Record) (fs1 fs2 : List String)
    (f s : String) (h1 : ∀ g ∈ fs1, isNum (lookupField r g) = true)
    (h2 : lookupField r f = some (.nonNumeric s)) :
    extractFeatures r (fs1 ++ f :: fs2) = .error (.invalidValue s) := by
  induction fs1 with
  | nil => simp [extractFeatures, h2]
  | cons g gs ih =>
    have hg := h1 g (List.mem_cons_self g gs)
    have ih' := ih (fun g' hg' => h1 g' (List.mem_cons_of_mem g hg'))
    cases hl : lookupField r g with
    | none => rw [hl] at hg; simp [isNum] at hg
    | some v =>
      cases v with
      | num q => simp [extractFeatures, hl, ih', Except.map]
      | nonNumeric s' => rw [hl] at hg; simp [isNum] at hg

theorem predict_congr (st : ServerState) (r1 r2 : Record)
    (hv : vectorize r1 = vectorize r2) (he : r1.isEmpty = r2.isEmpty) :
    predict st (some r1) = predict st (some r2) := by
  simp only [predict, he, runPrediction, preprocess_patient_data, hv]

theorem batchEntry_isSuccess (st : ServerState) (i : Nat) (r : Record) :
    (batchEntry st i r).isSuccess = predOk st r := by
  simp only [batchEntry, predOk]
  cases runPrediction st r <;> rfl

theorem batch_results_getElem (st : ServerState) (rs : List Record) (j : Nat) :
    (rs.enum.map (fun p => batchEntry st p.1 p.2))[j]? =
      rs[j]?.map (fun r => batchEntry st j r) := by
  rw [List.getElem?_map, List.getElem?_enum]
  cases rs[j]? <;> rfl

theorem countP_batch_enumFrom (st : ServerState) (rs : List Record) (n : Nat) :
    ((List.enumFrom n rs).map (fun p => batchEntry st p.1 p.2)).countP
      (fun e => e.isSuccess) = rs.countP (fun r => predOk st r) := by
  induction rs generalizing n with
  | nil => rfl
  | cons r rs ih =>
    simp only [List.enumFrom, List.map_cons, List.countP_cons, ih (n + 1),
      batchEntry_isSuccess]

theorem countP_batch_enum (st : ServerState) (rs : List Record) :
    (rs.enum.map (fun p => batchEntry st p.1 p.2)).countP
      (fun e => e.isSuccess) = rs.countP (fun r => predOk st r) :=
  countP_batch_enumFrom st rs 0

theorem countP_exactly_one_false {α : Type} (p : α → Bool) (d : α) :
    ∀ (l : List α) (k : Nat), k < l.length → p (l.getD k d) = false →
      (∀ j, j < l.length → j ≠ k → p (l.getD j d) = true) →
      l.countP p = l.length - 1 := by
  intro l
  induction l with
  | nil => intro k hk; simp at hk
  | cons a l ih =>
    intro k hk hbad hgood
    cases k with
    | zero =>
      have ha : p a = false := by simpa using hbad
      have hall : l.countP p = l.length := by
        rw [List.countP_eq_length]
        intro x hx
        obtain ⟨j, hj, rfl⟩ := List.mem_iff_getElem.mp hx
        have hg := hgood (j + 1) (by simpa using hj) (by simp)
        rw [List.getD_cons_succ, List.getD_eq_getElem _ _ hj] at hg
        exact hg
      simp [List.countP_cons, ha, hall]
    | succ k =>
      have ha : p a = true := by
        have := hgood 0 (by simp) (by simp)
        simpa using this
      have hk' : k < l.length := by simpa using hk
      have hbad' : p (l.getD k d) = false := by
        simpa [List.getD_cons_succ] using hbad
      have hgood' : ∀ j, j < l.length → j ≠ k → p (l.getD j d) = true := by
        intro j hj hjk
        have := hgood (j + 1) (by simpa using hj) (by simpa using hjk)
        simpa [List.getD_cons_succ] using this
      have hc := ih k hk' hbad' hgood'
      have hpos : 1 ≤ l.length := Nat.one_le_of_lt (Nat.lt_of_le_of_lt (Nat.zero_le _) hk')
      simp only [List.countP_cons, ha, if_pos, List.length_cons, hc]
      omega

theorem predict_proba_mem (m : Forest) (x : List ℚ) :
    0 ≤ m.predict_proba x ∧ m.predict_proba x ≤ 1 := by
  unfold Forest.predict_proba
  constructor
  · positivity
  · rcases Nat.eq_zero_or_pos m.trees.length with h | h
    · rw [List.length_eq_zero] at h
      simp [h]
    · have hl : (0 : ℚ) < (m.trees.length : ℚ) := by exact_mod_cast h
      rw [div_le_one hl]
      exact_mod_cast List.countP_le_length _

theorem runPrediction_ok_payload (st : ServerState) (r : Record)
    (p : PredictionPayload) (h : runPrediction st r = .ok p) :
    ∃ m x, st.model = some m ∧ p = builtPayload m x := by
  unfold runPrediction at h
  cases hp : preprocess_patient_data st.scaler r with
  | error e => rw [hp] at h; exact absurd h (by simp)
  | ok x =>
    rw [hp] at h
    cases hm : st.model with
    | none => rw [hm] at h; exact absurd h (by simp)
    | some m =>
      rw [hm] at h
      simp only [Except.ok.injEq] at h
      exact ⟨m, x, rfl, h.symm⟩

theorem payloadInv_builtPayload (m : Forest) (x : List ℚ) :
    payloadInv (builtPayload m x) := by
  obtain ⟨h0, h1⟩ := predict_proba_mem m x
  unfold payloadInv builtPayload
  cases hp : m.predict x <;>
    simp_all

theorem nTest_le (n : Nat) : nTest n ≤ n := by
  unfold nTest
  omega

theorem shuffleFuel_length {α : Type} :
    ∀ (fuel s : Nat) (l : List α), l.length ≤ fuel →
      (shuffleFuel fuel s l).length = l.length := by
  intro fuel
  induction fuel with
  | zero => intro s l h; rfl
  | succ fuel ih =>
    intro s l h
    cases l with
    | nil => rfl
    | cons x xs =>
      have hi : s % (x :: xs).length < (x :: xs).length :=
        Nat.mod_lt _ (by simp)
      have hlen : ((x :: xs).eraseIdx (s % (x :: xs).length)).length =
          (x :: xs).length - 1 := by
        rw [List.length_eraseIdx, if_pos hi]
      have hle : ((x :: xs).eraseIdx (s % (x :: xs).length)).length ≤ fuel := by
        rw [hlen]
        simp only [List.length_cons] at h ⊢
        omega
      show ((x :: xs).getD (s % (x :: xs).length) x ::
          shuffleFuel fuel (lcg s) ((x :: xs).eraseIdx (s % (x :: xs).length))).length =
        (x :: xs).length
      rw [List.length_cons, ih (lcg s) _ hle, hlen]
      simp only [List.length_cons]
      omega

theorem shuffle_length {α : Type} (s : Nat) (l : List α) :
    (shuffle s l).length = l.length :=
  shuffleFuel_length l.length s l le_rfl

theorem shuffleFuel_perm {α : Type} :
    ∀ (fuel s : Nat) (l : List α), (shuffleFuel fuel s l).Perm l := by
  intro fuel
  induction fuel with
  | zero => intro s l; exact List.Perm.refl l
  | succ fuel ih =>
    intro s l
    cases l with
    | nil => exact List.Perm.refl []
    | cons x xs =>
      have hi : s % (x :: xs).length < (x :: xs).length :=
        Nat.mod_lt _ (by simp)
      simp only [shuffleFuel]
      refine ((ih (lcg s) _).cons _).trans ?_
      rw [List.getD_eq_getElem _ _ hi, List.eraseIdx_eq_take_drop_succ]
      refine List.perm_middle.symm.trans ?_
      rw [List.getElem_cons_drop _ _ hi, List.take_append_drop]

theorem shuffle_perm {α : Type} (s : Nat) (l : List α) :
    (shuffle s l).Perm l :=
  shuffleFuel_perm l.length s l

theorem countP_zip_snd {α β : Type} (p : β → Bool) :
    ∀ (X : List α) (y : List β), X.length = y.length →
      (X.zip y).countP (fun q => p q.2) = y.countP p := by
  intro X
  induction X with
  | nil =>
    intro y h
    cases y with
    | nil => rfl
    | cons b y => simp at h
  | cons x X ih =>
    intro y h
    cases y with
    | nil => simp at h
    | cons b y =>
      simp only [List.zip_cons_cons, List.countP_cons, ih y (by simpa using h)]

theorem smote_balanced_id (seed : Nat) (X : List (List ℚ)) (y : List Bool)
    (h : y.count false = y.count true) :
    smoteResample seed X y = (X, y) := by
  unfold smoteResample
  rw [if_pos h]

theorem count_true_filter_len (m : Bool) (X : List (List ℚ)) (y : List Bool)
    (hlen : X.length = y.length) :
    (((X.zip y).filter (fun p => p.2 = m)).map Prod.fst).length = y.count m := by
  rw [List.length_map, ← List.countP_eq_length_filter,
    countP_zip_snd (fun b => decide (b = m)) X y hlen, List.count_eq_countP]
  congr 1

theorem smote_balances (seed : Nat) (X : List (List ℚ)) (y : List Bool)
    (hlen : X.length = y.length)
    (h1 : 0 < y.count true) (h0 : 0 < y.count false) :
    (smoteResample seed X y).2.count true =
      (smoteResample seed X y).2.count false := by
  by_cases heq : y.count false = y.count true
  · rw [smote_balanced_id seed X y heq]
    exact heq.symm
  · by_cases hlt : y.count true < y.count false
    · have hm : decide (y.count true < y.count false) = true :=
        decide_eq_true hlt
      have hflen := count_true_filter_len
        (decide (y.count true < y.count false)) X y hlen
      rw [hm] at hflen
      have hne : (((X.zip y).filter (fun p => p.2 = true)).map
          Prod.fst).isEmpty = false := by
        rw [List.isEmpty_eq_false, ← List.length_pos, hflen]
        exact h1
      simp only [smoteResample, hm]
      rw [if_neg heq, if_neg (by rw [hne]; exact Bool.false_ne_true)]
      simp [List.count_append, List.count_replicate]
      omega
    · have hgt : y.count false < y.count true := by omega
      have hm : decide (y.count true < y.count false) = false :=
        decide_eq_false hlt
      have hflen := count_true_filter_len
        (decide (y.count true < y.count false)) X y hlen
      rw [hm] at hflen
      have hne : (((X.zip y).filter (fun p => p.2 = false)).map
          Prod.fst).isEmpty = false := by
        rw [List.isEmpty_eq_false, ← List.length_pos, hflen]
        exact h0
      simp only [smoteResample, hm]
      rw [if_neg heq, if_neg (by rw [hne]; exact Bool.false_ne_true)]
      simp [List.count_append, List.count_replicate]
      omega

/-! ### Claim theorems -/

/-- C2: for every fitted scaler state and every well-formed 12-field
record, preprocessing standardizes exactly the 7 continuous positions 0,
2, 4, 6, 7, 8, 11 (age, creatinine_phosphokinase, ejection_fraction,
platelets, serum_creatinine, serum_sodium, time) by (x - mean) / scale,
passes the 5 binary positions 1, 3, 5, 9, 10 (anaemia, diabetes,
high_blood_pressure, sex, smoking) through to the classifier input
unmodified, and returns a vector of the same length 12 as the input. -/
theorem preprocess_selective_scaling (sc : Scaler) (r : Record)
    (a b c d e f g h i j k l : ℚ)
    (hv : vectorize r = .ok [ a, b, c, d, e, f, g, h, i, j, k, l]) :
    preprocess_patient_data (some sc) r =
      .ok [ (a - sc.mean 0) / sc.scale 0, b, (c - sc.mean 1) / sc.scale 1, d,
        (e - sc.mean 2) / sc.scale 2, f, (g - sc.mean 3) / sc.scale 3,
        (h - sc.mean 4) / sc.scale 4, (i - sc.mean 5) / sc.scale 5, j, k,
        (l - sc.mean 6) / sc.scale 6] ∧
    (scaledFeatures sc [ a, b, c, d, e, f, g, h, i, j, k, l]).length = 12 := by
  constructor
  · simp only [preprocess_patient_data, hv]
    rfl
  · rfl

/-- C2 witness: the selective-scaling theorem applied at a concrete scaler
and the concrete well-formed record. -/
theorem preprocess_selective_scaling_witness :
    preprocess_patient_data (some sc0) goodRecord =
      .ok [ (65 - sc0.mean 0) / sc0.scale 0, 0, (582 - sc0.mean 1) / sc0.scale 1,
        0, (20 - sc0.mean 2) / sc0.scale 2, 0, (265 - sc0.mean 3) / sc0.scale 3,
        (19 / 10 - sc0.mean 4) / sc0.scale 4, (130 - sc0.mean 5) / sc0.scale 5,
        1, 0, (4 - sc0.mean 6) / sc0.scale 6] ∧
    (scaledFeatures sc0 [ 65, 0, 582, 0, 20, 0, 265, 19 / 10, 130, 1, 0, 4]).length = 12 :=
  preprocess_selective_scaling sc0 goodRecord 65 0 582 0 20 0 265 (19 / 10)
    130 1 0 4 (by with_unfolding_all decide)

/-- C3: vectorization checks the 12 schema fields in fixed order: when the
earliest defective field is absent it fails naming exactly that field,
when the earliest defective field is present but not float()-coercible it
fails with the invalid-value error, a record missing only serum_sodium
fails naming exactly serum_sodium, and a record with all 12 fields present
and coercible yields the complete ordered 12-element vector of coerced
values with no defaulting. -/
theorem vectorize_schema_order :
    (∀ r : Record,
      (∀ f ∈ feature_names, isNum (lookupField r f) = true) →
      vectorize r = .ok (feature_names.map (fun f => coerceD r f)) ∧
      ∀ v, vectorize r = .ok v → v.length = 12) ∧
    (∀ (r : Record) (fs1 fs2 : List String) (f : String),
      feature_names = fs1 ++ f :: fs2 →
      (∀ g ∈ fs1, isNum (lookupField r g) = true) →
      lookupField r f = none →
      vectorize r = .error (.missingField f)) ∧
    (∀ (r : Record) (fs1 fs2 : List String) (f s : String),
      feature_names = fs1 ++ f :: fs2 →
      (∀ g ∈ fs1, isNum (lookupField r g) = true) →
      lookupField r f = some (.nonNumeric s) →
      vectorize r = .error (.invalidValue s)) ∧
    (∀ r : Record, lookupField r "serum_sodium" = none →
      (∀ f ∈ feature_names, f ≠ "serum_sodium" →
        isNum (lookupField r f) = true) →
      vectorize r = .error (.missingField "serum_sodium")) := by
  have hsplit : feature_names =
      [ "age", "anaemia", "creatinine_phosphokinase", "diabetes",
        "ejection_fraction", "high_blood_pressure", "platelets",
        "serum_creatinine"] ++ "serum_sodium" :: [ "sex", "smoking", "time"] :=
    rfl
  refine ⟨?_, ?_, ?_, ?_⟩
  · intro r h
    have he := extractFeatures_ok r feature_names h
    refine ⟨he, ?_⟩
    intro v hv
    unfold vectorize at hv
    rw [he] at hv
    cases hv
    simp [feature_names]
  · intro r fs1 fs2 f hfe h1 h2
    unfold vectorize
    rw [hfe]
    exact extractFeatures_first_missing r fs1 fs2 f h1 h2
  · intro r fs1 fs2 f s hfe h1 h2
    unfold vectorize
    rw [hfe]
    exact extractFeatures_first_invalid r fs1 fs2 f s h1 h2
  · intro r h2 hco
    unfold vectorize
    rw [hsplit]
    refine extractFeatures_first_missing r _ _ _ ?_ h2
    intro g hg
    refine hco g ?_ ?_
    · rw [hsplit]
      exact List.mem_append_left _ hg
    · intro he
      subst he
      revert hg
      decide

/-- C3 witness: the schema-order theorem applied to concrete records: a
fully well-formed record, one missing only serum_sodium, and one with a
non-numeric serum_sodium value. -/
theorem vectorize_schema_order_witness :
    vectorize goodRecord =
      .ok [ 65, 0, 582, 0, 20, 0, 265, 19 / 10, 130, 1, 0, 4] ∧
    vectorize missingSodiumRecord = .error (.missingField "serum_sodium") ∧
    vectorize invalidSodiumRecord = .error (.invalidValue "abc") := by
  refine ⟨?_, ?_, ?_⟩
  · rw [(vectorize_schema_order.1 goodRecord (by decide)).1]
    with_unfolding_all decide
  · exact vectorize_schema_order.2.2.2 missingSodiumRecord (by decide)
      (by decide)
  · exact vectorize_schema_order.2.2.1 invalidSodiumRecord
      [ "age", "anaemia", "creatinine_phosphokinase", "diabetes",
        "ejection_fraction", "high_blood_pressure", "platelets",
        "serum_creatinine"]
      [ "sex", "smoking", "time"] "serum_sodium" "abc" rfl (by decide) (by decide)

/-- C9: single-record prediction is a pure deterministic function of the
record and the pipeline state (calling it twice with unchanged state gives
identical results), and two records holding the same 12 name-value pairs
in different insertion orders (keys are unique in a dict) vectorize to the
identical feature vector and receive the identical response. -/
theorem predict_pure_deterministic (st : ServerState) (r1 r2 : Record)
    (hp : r1.Perm r2) (hn : (r1.map Prod.fst).Nodup) :
    predict st (some r1) = predict st (some r1) ∧
    vectorize r1 = vectorize r2 ∧
    predict st (some r1) = predict st (some r2) := by
  have hl := lookupField_perm hp hn
  have hv : vectorize r1 = vectorize r2 :=
    extractFeatures_congr r1 r2 feature_names (fun f _ => hl f)
  have he : r1.isEmpty = r2.isEmpty := by
    cases r1 with
    | nil =>
      cases r2 with
      | nil => rfl
      | cons y ys => exact absurd hp.length_eq (by simp)
    | cons x xs =>
      cases r2 with
      | nil => exact absurd hp.length_eq (by simp)
      | cons y ys => rfl
  exact ⟨rfl, hv, predict_congr st r1 r2 hv he⟩

/-- C9 witness: the determinism theorem applied to the concrete record and
its reversed-insertion-order copy. -/
theorem predict_pure_deterministic_witness :
    predict st0 (some goodRecord) = predict st0 (some goodRecord) ∧
    vectorize goodRecord = vectorize goodRecordReversed ∧
    predict st0 (some goodRecord) = predict st0 (some goodRecordReversed) :=
  predict_pure_deterministic st0 goodRecord goodRecordReversed
    (List.reverse_perm goodRecord).symm (by decide)

/-- C10 counterexample: the empty record and a record holding only the
non-schema key patient_id agree on every schema-field lookup and differ
only in that extra key, yet the /predict endpoint answers them
differently, because the empty dict is falsy and receives the separate
"No data provided" rejection before preprocessing runs. -/
theorem extra_keys_counterexample :
    (∀ f ∈ feature_names,
      lookupField ([] : Record) f = lookupField extraOnlyRecord f) ∧
    predict st0 (some ([] : Record)) ≠ predict st0 (some extraOnlyRecord) := by
  with_unfolding_all decide

/-- C10 (amended): non-schema keys are ignored: two records that agree on
all 12 schema-field lookups produce the identical preprocessing result
and, provided neither is the empty dict (which the endpoint rejects up
front with its own message), the identical /predict response; in
particular extra keys never cause an otherwise well-formed record to
fail. -/
theorem extra_keys_ignored (st : ServerState) (r1 r2 : Record)
    (h : ∀ f ∈ feature_names, lookupField r1 f = lookupField r2 f)
    (h1 : r1 ≠ []) (h2 : r2 ≠ []) :
    preprocess_patient_data st.scaler r1 =
      preprocess_patient_data st.scaler r2 ∧
    predict st (some r1) = predict st (some r2) := by
  have hv : vectorize r1 = vectorize r2 :=
    extractFeatures_congr r1 r2 feature_names h
  have he : r1.isEmpty = r2.isEmpty :=
    (List.isEmpty_eq_false.mpr h1).trans (List.isEmpty_eq_false.mpr h2).symm
  constructor
  · simp only [preprocess_patient_data, hv]
  · exact predict_congr st r1 r2 hv he

/-- C10 witness: the amended theorem applied to the concrete record and
its copy extended with an extra patient_id key. -/
theorem extra_keys_ignored_witness :
    preprocess_patient_data st0.scaler goodRecord =
      preprocess_patient_data st0.scaler extendedRecord ∧
    predict st0 (some goodRecord) = predict st0 (some extendedRecord) :=
  extra_keys_ignored st0 goodRecord extendedRecord
    (by with_unfolding_all decide) (by decide) (by decide)

theorem predOk_ready (m : Forest) (sc : Scaler) (r : Record) :
    predOk ⟨some m, some sc⟩ r = vectorizeOk r := by
  simp only [predOk, runPrediction, preprocess_patient_data, vectorizeOk]
  cases vectorize r <;> rfl

/-- C1: predict_batch applies the single-record prediction independently
to each record in order; with a loaded model and scaler, a batch of N
records whose only malformed record sits at index k yields total = N and
successful = N - 1, the error entry tagged k sits at position k, and every
well-formed record's success entry sits at its original index and carries
the payload of its own single-record prediction. -/
theorem predict_batch_isolation (m : Forest) (sc : Scaler)
    (rs : List Record) (k : Nat) (hk : k < rs.length)
    (hbad : vectorizeOk (rs.getD k []) = false)
    (hgood : ∀ j, j < rs.length → j ≠ k → vectorizeOk (rs.getD j []) = true) :
    ∃ resp, predict_batch ⟨some m, some sc⟩ (some rs) = .ok resp ∧
      resp.total = rs.length ∧
      resp.results.length = rs.length ∧
      resp.successful = rs.length - 1 ∧
      (∀ j, j < rs.length → j ≠ k →
        ∃ p, resp.results[j]? = some (.success j p) ∧
          runPrediction ⟨some m, some sc⟩ (rs.getD j []) = .ok p) ∧
      (∃ msg, resp.results[k]? = some (.failure k msg)) := by
  refine ⟨_, rfl, rfl, ?_, ?_, ?_, ?_⟩
  · show (rs.enum.map
      (fun p => batchEntry ⟨some m, some sc⟩ p.1 p.2)).length = rs.length
    simp [List.enum_length]
  · show (rs.enum.map
      (fun p => batchEntry ⟨some m, some sc⟩ p.1 p.2)).countP
        (fun r => r.isSuccess) = rs.length - 1
    rw [countP_batch_enum]
    refine countP_exactly_one_false (fun r => predOk ⟨some m, some sc⟩ r) []
      rs k hk ?_ ?_
    · show predOk ⟨some m, some sc⟩ (rs.getD k []) = false
      rw [predOk_ready]
      exact hbad
    · intro j hj hjk
      show predOk ⟨some m, some sc⟩ (rs.getD j []) = true
      rw [predOk_ready]
      exact hgood j hj hjk
  · intro j hj hjk
    have hget : rs[j]? = some (rs.getD j []) := by
      rw [List.getD_eq_getElem _ _ hj]
      exact List.getElem?_eq_getElem hj
    have hpo : predOk ⟨some m, some sc⟩ (rs.getD j []) = true := by
      rw [predOk_ready]
      exact hgood j hj hjk
    cases hrp : runPrediction ⟨some m, some sc⟩ (rs.getD j []) with
    | error e => rw [predOk, hrp] at hpo; exact absurd hpo (by simp)
    | ok p =>
      refine ⟨p, ?_, rfl⟩
      show (rs.enum.map
        (fun q => batchEntry ⟨some m, some sc⟩ q.1 q.2))[j]? =
          some (.success j p)
      rw [batch_results_getElem, hget]
      simp only [Option.map_some']
      unfold batchEntry
      rw [hrp]
  · have hget : rs[k]? = some (rs.getD k []) := by
      rw [List.getD_eq_getElem _ _ hk]
      exact List.getElem?_eq_getElem hk
    have hpo : predOk ⟨some m, some sc⟩ (rs.getD k []) = false := by
      rw [predOk_ready]
      exact hbad
    cases hrp : runPrediction ⟨some m, some sc⟩ (rs.getD k []) with
    | ok p => rw [predOk, hrp] at hpo; exact absurd hpo (by simp)
    | error e =>
      refine ⟨e.str, ?_⟩
      show (rs.enum.map
        (fun q => batchEntry ⟨some m, some sc⟩ q.1 q.2))[k]? =
          some (.failure k e.str)
      rw [batch_results_getElem, hget]
      simp only [Option.map_some']
      unfold batchEntry
      rw [hrp]

/-- C1 witness: the batch-isolation theorem applied to the concrete
two-record batch whose second record is missing serum_sodium. -/
theorem predict_batch_isolation_witness :
    (1 : Nat) < ([ goodRecord, missingSodiumRecord] : List Record).length ∧
    ∃ resp, predict_batch ⟨some m0, some sc0⟩
        (some [ goodRecord, missingSodiumRecord]) = .ok resp ∧
      resp.total = ([ goodRecord, missingSodiumRecord] : List Record).length ∧
      resp.results.length =
        ([ goodRecord, missingSodiumRecord] : List Record).length ∧
      resp.successful =
        ([ goodRecord, missingSodiumRecord] : List Record).length - 1 ∧
      (∀ j, j < ([ goodRecord, missingSodiumRecord] : List Record).length →
        j ≠ 1 →
        ∃ p, resp.results[j]? = some (.success j p) ∧
          runPrediction ⟨some m0, some sc0⟩
            (([ goodRecord, missingSodiumRecord] : List Record).getD j []) =
              .ok p) ∧
      (∃ msg, resp.results[1]? = some (.failure 1 msg)) :=
  ⟨by decide,
    predict_batch_isolation m0 sc0 [ goodRecord, missingSodiumRecord] 1
      (by decide) (by with_unfolding_all decide)
      (by with_unfolding_all decide)⟩

/-- C4: every success payload produced by /predict or by any entry of
/predict-batch satisfies the PredictionResult invariant: the label is YES
or NO, the positive-class probability estimate lies in [0, 1], and the
label is YES exactly when the risk level is HIGH RISK (NO exactly when it
is LOW RISK). -/
theorem prediction_payload_invariants (st : ServerState) :
    (∀ body p, predict st body = .ok p → payloadInv p) ∧
    (∀ body resp i p, predict_batch st body = .ok resp →
      BatchEntry.success i p ∈ resp.results → payloadInv p) := by
  have hrun : ∀ r p, runPrediction st r = .ok p → payloadInv p := by
    intro r p h
    obtain ⟨m, x, _, rfl⟩ := runPrediction_ok_payload st r p h
    exact payloadInv_builtPayload m x
  constructor
  · intro body p h
    cases body with
    | none => exact absurd h (by simp [predict])
    | some pd =>
      simp only [predict] at h
      by_cases hemp : pd.isEmpty
      · rw [if_pos hemp] at h
        exact absurd h (by simp)
      · rw [if_neg hemp] at h
        cases hrp : runPrediction st pd with
        | ok q =>
          rw [hrp] at h
          simp only [Except.ok.injEq] at h
          rw [show q = p from by cases h; rfl] at hrp
          exact hrun pd p hrp
        | error e =>
          rw [hrp] at h
          cases e <;> simp at h
  · intro body resp i p h hmem
    cases body with
    | none => exact absurd h (by simp [predict_batch])
    | some patients =>
      simp only [predict_batch, BatchApiResponse.ok.injEq] at h
      rw [← h] at hmem
      simp only [List.mem_map] at hmem
      obtain ⟨q, _, hq⟩ := hmem
      unfold batchEntry at hq
      cases hrp : runPrediction st q.2 with
      | ok pay =>
        rw [hrp] at hq
        simp only [BatchEntry.success.injEq] at hq
        rw [show pay = p from hq.2] at hrp
        exact hrun q.2 p hrp
      | error e =>
        rw [hrp] at hq
        exact absurd hq (by simp)

/-- C4 witness: the payload-invariant theorem applied to the concrete
loaded state and record, for both the single and the batch endpoint. -/
theorem prediction_payload_invariants_witness :
    payloadInv yesPayload ∧ payloadInv yesPayload :=
  ⟨(prediction_payload_invariants st0).1 (some goodRecord) yesPayload
      (by with_unfolding_all decide),
    (prediction_payload_invariants st0).2 (some [ goodRecord]) _ 0 yesPayload
      rfl (by with_unfolding_all decide)⟩

/-- C7 counterexample: a well-formed prediction request sent before any
model or scaler is loaded does not fail with a distinct not-ready error
kind: the response is the generic 500 internal error produced by the
catch-all handler, wrapping the AttributeError text of the None scaler. -/
theorem not_ready_counterexample :
    predict stNone (some goodRecord) =
      .internalError ("Prediction failed: " ++ noScalerMsg) := by
  with_unfolding_all decide

/-- C7 (amended): a prediction request whose record is well-formed, made
before the model and scaler are loaded, fails, but through the generic 500
exception handler wrapping the None-scaler AttributeError; the server
never produces a distinct not-ready error kind. -/
theorem not_ready_generic_500 (r : Record) (v : List ℚ)
    (hr : r ≠ []) (hv : vectorize r = .ok v) :
    predict stNone (some r) =
      .internalError ("Prediction failed: " ++ noScalerMsg) := by
  have hemp : r.isEmpty = false := List.isEmpty_eq_false.mpr hr
  simp only [predict, hemp, Bool.false_eq_true, if_false, runPrediction,
    preprocess_patient_data, hv, stNone]

/-- C7 witness: the amended theorem applied to the concrete well-formed
record. -/
theorem not_ready_generic_500_witness :
    goodRecord ≠ [] ∧
    predict stNone (some goodRecord) =
      .internalError ("Prediction failed: " ++ noScalerMsg) :=
  ⟨by decide,
    not_ready_generic_500 goodRecord
      [ 65, 0, 582, 0, 20, 0, 265, 19 / 10, 130, 1, 0, 4] (by decide)
      (by with_unfolding_all decide)⟩

/-- C5: train_model executes its stages in the fixed order: the scaler is
fitted on (and applied to) the deduplicated frame first, SMOTE(seed 42)
then appends interpolated synthetic minority samples until both classes
have equal count, the already-rebalanced rows are only then split by
train_test_split(test_size 0.30, seed 42) into ceil(3n/10) test rows and
the remaining train rows, and a bagged ensemble of exactly 100 trees
(seed 42) is fitted on the train portion; so rebalancing happens strictly
after scaling and strictly before the split. -/
theorem train_model_stage_order (df : Frame)
    (h1 : 0 < (trainY df).count true) (h0 : 0 < (trainY df).count false) :
    (train_model df).scaler = fitScaler (dropDuplicates df) ∧
    (train_model df).model = forestFit 42 100 (splitData df).1 ∧
    (resampledXY df).2.count true = (resampledXY df).2.count false ∧
    (splitData df).2.length =
      nTest ((resampledXY df).1.zip (resampledXY df).2).length ∧
    (splitData df).1.length =
      ((resampledXY df).1.zip (resampledXY df).2).length -
        nTest ((resampledXY df).1.zip (resampledXY df).2).length ∧
    (train_model df).model.trees.length = 100 := by
  have hlen : (trainX df).length = (trainY df).length := by
    simp [trainX, trainY]
  have hsl := shuffle_length 42 ((resampledXY df).1.zip (resampledXY df).2)
  refine ⟨rfl, rfl, ?_, ?_, ?_, ?_⟩
  · exact smote_balances 42 (trainX df) (trainY df) hlen h1 h0
  · show ((shuffle 42 ((resampledXY df).1.zip (resampledXY df).2)).take
      (nTest (shuffle 42
        ((resampledXY df).1.zip (resampledXY df).2)).length)).length = _
    rw [List.length_take, hsl]
    exact min_eq_left (nTest_le _)
  · show ((shuffle 42 ((resampledXY df).1.zip (resampledXY df).2)).drop
      (nTest (shuffle 42
        ((resampledXY df).1.zip (resampledXY df).2)).length)).length = _
    rw [List.length_drop, hsl]
  · show ((List.range 100).map _).length = 100
    simp

/-- C5 witness: the stage-order theorem applied to a concrete frame with
both classes present. -/
theorem train_model_stage_order_witness :
    (train_model df5).scaler = fitScaler (dropDuplicates df5) ∧
    (train_model df5).model = forestFit 42 100 (splitData df5).1 ∧
    (resampledXY df5).2.count true = (resampledXY df5).2.count false ∧
    (splitData df5).2.length =
      nTest ((resampledXY df5).1.zip (resampledXY df5).2).length ∧
    (splitData df5).1.length =
      ((resampledXY df5).1.zip (resampledXY df5).2).length -
        nTest ((resampledXY df5).1.zip (resampledXY df5).2).length ∧
    (train_model df5).model.trees.length = 100 :=
  train_model_stage_order df5 (by with_unfolding_all decide)
    (by with_unfolding_all decide)

/-- C6 (amended): the scaler statistics are computed over the whole
deduplicated frame before the split exists, so the holdout is drawn from
the very pool the scaler was fitted on: whenever the classes are already
balanced (SMOTE leaves the rows unchanged), every test row is one of the
scaled fit rows; the fit rows are disjoint from the holdout only if the
holdout is empty. -/
theorem scaler_fit_overlaps_holdout (df : Frame)
    (hbal : (trainY df).count false = (trainY df).count true) :
    (train_model df).scaler = fitScaler (dropDuplicates df) ∧
    ∀ p ∈ (splitData df).2, p ∈ (trainX df).zip (trainY df) := by
  refine ⟨rfl, ?_⟩
  intro p hp
  have hid := smote_balanced_id 42 (trainX df) (trainY df) hbal
  simp only [splitData, resampledXY, hid, train_test_split] at hp
  exact (shuffle_perm 42 ((trainX df).zip (trainY df))).mem_iff.mp
    (List.mem_of_mem_take hp)

/-- C6 witness: the amended theorem applied to the concrete balanced
frame. -/
theorem scaler_fit_overlaps_holdout_witness :
    (train_model df6).scaler = fitScaler (dropDuplicates df6) ∧
    ∀ p ∈ (splitData df6).2, p ∈ (trainX df6).zip (trainY df6) :=
  scaler_fit_overlaps_holdout df6 (by with_unfolding_all decide)

/-- C6 counterexample: on a concrete frame the 30% holdout is nonempty and
a row the scaler statistics were computed from appears, scaled, inside the
holdout, so the rows used to fit the scaler are not disjoint from the test
split. -/
theorem scaler_leakage_counterexample :
    (splitData df6).2 ≠ [] ∧
    ∃ r0 ∈ dropDuplicates df6,
      ((scaleRow (fitScaler (dropDuplicates df6)) r0).take 12,
        decide ((scaleRow (fitScaler (dropDuplicates df6)) r0).getD 12 0 ≠ 0))
        ∈ (splitData df6).2 := by
  with_unfolding_all decide

/-- C8 (amended): a zero-variance continuous column does not abort
training: the scaler fit substitutes 1 for the zero scale (the sklearn
zero guard), so transform divides by 1 instead of 0, and a complete
artifact pair — the fitted scaler plus a 100-tree model — is still
produced from such data. -/
theorem zero_variance_column_trains (df : Frame) (i : Fin 7)
    (h : colVar (column (dropDuplicates df)
      (continuous_indices.getD i.val 0)) = 0) :
    (train_model df).scaler.scale i = 1 ∧
    (train_model df).model.trees.length = 100 := by
  constructor
  · show scaleOfVar (colVar (column (dropDuplicates df)
      (continuous_indices.getD i.val 0))) = 1
    rw [h]
    rfl
  · show ((List.range 100).map _).length = 100
    simp

/-- C8 witness: the amended theorem applied to the concrete frame whose
continuous columns are constant. -/
theorem zero_variance_column_trains_witness :
    (train_model df8).scaler.scale 0 = 1 ∧
    (train_model df8).model.trees.length = 100 :=
  zero_variance_column_trains df8 0 (by with_unfolding_all decide)

/-- C8 counterexample: on a concrete frame whose age column has zero
variance, fitting does not fail: the scaler is produced with scale 1 on
that column, the scaled age values are all 0 (pure centering, no division
by zero), and the full 100-tree artifact pair is still trained. -/
theorem zero_variance_counterexample :
    colVar (column (dropDuplicates df8) 0) = 0 ∧
    (train_model df8).scaler.scale 0 = 1 ∧
    (∀ r ∈ scaledRows df8, r.getD 0 0 = 0) ∧
    (train_model df8).model.trees.length = 100 := by
  with_unfolding_all decide
